import Mathlib

/-
Shallow embedding of the chat/text completion adapter:
  src/python/semantic_kernel/connectors/ai/open_ai/services/open_ai_chat_completion_base.py
  src/python/semantic_kernel/connectors/ai/open_ai/services/azure_chat_completion.py

Modelling conventions:
  - Python float fields are carried opaquely; they are never computed with in
    this module, so they are represented by Rat.
  - The openai transport is an oracle parameter: a function from the keyword
    payload of openai.ChatCompletion.acreate to either a result or a raised
    transport error. The list of payloads actually handed to the oracle is
    returned alongside the result, so that "no network call was issued" is the
    statement that this list is empty.
  - An async generator is modelled as the list of elements it yields together
    with the error, if any, that terminates it early.
-/

deriving instance DecidableEq for Except

/-- Error raised by the underlying openai transport; abstract, carries a message. -/
structure TransportError where
  msg : String
deriving DecidableEq

/-- Error codes of AIException used by this module. -/
inductive ErrorCode where
  | InvalidRequest
  | ServiceError
deriving DecidableEq

/-- Python exceptions observable from this module. `native e` is the transport
error `e` itself propagating uncaught (not wrapped in an AIException). -/
inductive PyError where
  | valueError (msg : String)
  | aiException (code : ErrorCode) (msg : String) (cause : Option TransportError)
  | indexError
  | attributeError
  | keyError (k : String)
  | native (e : TransportError)
deriving DecidableEq

/-- Fields of ChatRequestSettings read by this module. -/
structure ChatRequestSettings where
  temperature : Rat
  top_p : Rat
  presence_penalty : Rat
  frequency_penalty : Rat
  max_tokens : Int
  number_of_responses : Int
  token_selection_biases : Option (List (Int × Rat))
  stop_sequences : Option (List String)
deriving DecidableEq

/-- Fields of CompleteRequestSettings read by this module. -/
structure CompleteRequestSettings where
  temperature : Rat
  top_p : Rat
  presence_penalty : Rat
  frequency_penalty : Rat
  max_tokens : Int
  number_of_responses : Int
  token_selection_biases : Option (List (Int × Rat))
  stop_sequences : Option (List String)
deriving DecidableEq

/-- The pydantic fields of OpenAIChatCompletionBase. -/
structure OpenAIChatCompletionBase where
  model_id : String
  api_key : String
  api_type : String
  org_id : Option String
  api_version : Option String
  endpoint : Option String
deriving DecidableEq

/-- The keyword payload handed to openai.ChatCompletion.acreate, in source
order. `model_args` is the dict splatted first: either
[("engine", model_id)] or [("model", model_id)]. Messages are (role, content)
pairs, matching the formatted role/content dicts. -/
structure ChatPayload where
  model_args : List (String × String)
  api_key : String
  api_type : String
  api_base : Option String
  api_version : Option String
  organization : Option String
  messages : List (String × String)
  temperature : Rat
  top_p : Rat
  n : Int
  stream : Bool
  stop : Option (List String)
  max_tokens : Int
  presence_penalty : Rat
  frequency_penalty : Rat
  logit_bias : List (Int × Rat)
deriving DecidableEq

/-- A message of a non-streaming response choice. -/
structure ChatMessage where
  content : String
deriving DecidableEq

/-- One candidate choice of a non-streaming response. -/
structure Choice where
  message : ChatMessage
deriving DecidableEq

/-- A non-streaming provider response. -/
structure Response where
  choices : List Choice
deriving DecidableEq

/-- The delta of a streamed chunk choice; role and content fields are optional. -/
structure Delta where
  role : Option String
  content : Option String
deriving DecidableEq

/-- One choice of a streamed chunk, with its reported index (a Python int). -/
structure StreamChoice where
  delta : Delta
  index : Int
deriving DecidableEq

/-- One streamed chunk. -/
structure Chunk where
  choices : List StreamChoice
deriving DecidableEq

/-- A streamed transport response: the chunks the consumer can pull, each pull
either delivering a chunk or raising a transport error that ends the stream. -/
abbrev ChunkStream := List (Except TransportError Chunk)

/-- A frame yielded by the streaming generators: a plain string when one
response is requested, a list of per-slot strings otherwise. -/
inductive Frame where
  | text (s : String)
  | slots (l : List String)
deriving DecidableEq

/-- The payload built by `_send_chat_request` once validation has passed,
field for field in the order of the acreate call. -/
def request_payload (self : OpenAIChatCompletionBase) (messages : List (String × String))
    (rs : ChatRequestSettings) (stream : Bool) : ChatPayload :=
  ⟨(if self.api_type ∈ (["azure", "azure_ad"] : List String) then
      [("engine", self.model_id)]
    else
      [("model", self.model_id)]),
   self.api_key, self.api_type, self.endpoint, self.api_version, self.org_id,
   messages,
   rs.temperature, rs.top_p, rs.number_of_responses, stream,
   (match rs.stop_sequences with
    | some ss => if 0 < ss.length then some ss else none
    | none => none),
   rs.max_tokens, rs.presence_penalty, rs.frequency_penalty,
   (match rs.token_selection_biases with
    | some tb => if 0 < tb.length then tb else []
    | none => [])⟩

/-- Embedding of `_send_chat_request`. The usage-capture hook on success is an
out-of-scope collaborator and is not modelled. The second component is the list
of transport calls issued. `R` is the transport result type: a `Response` for
non-streaming calls, a `ChunkStream` for streaming ones. -/
def send_chat_request {R : Type} (self : OpenAIChatCompletionBase)
    (transport : ChatPayload → Except TransportError R)
    (messages : List (String × String))
    (request_settings : Option ChatRequestSettings)
    (stream : Bool) : Except PyError R × List ChatPayload :=
  match request_settings with
  | none => (Except.error (PyError.valueError "The request settings cannot be `None`"), [])
  | some rs =>
    if rs.max_tokens < 1 then
      (Except.error (PyError.aiException ErrorCode.InvalidRequest
        ("The max tokens must be greater than 0, but was " ++ toString rs.max_tokens) none), [])
    else if messages.length ≤ 0 then
      (Except.error (PyError.aiException ErrorCode.InvalidRequest
        "To complete a chat you need at least one message" none), [])
    else if messages.getLast?.map Prod.fst ≠ some "user" then
      (Except.error (PyError.aiException ErrorCode.InvalidRequest
        "The last message must be from the user" none), [])
    else
      let payload := request_payload self messages rs stream
      match transport payload with
      | Except.error ex =>
        (Except.error (PyError.aiException ErrorCode.ServiceError
          "OpenAI service failed to complete the chat" (some ex)), [payload])
      | Except.ok r => (Except.ok r, [payload])

/-- Embedding of `_parse_choices`: reads chunk.choices[0] (IndexError when the
chunk has no choice), builds the fragment from the optional role and content
fields of the delta, and returns it with the reported index. -/
def parse_choices (chunk : Chunk) : Except PyError (String × Int) :=
  match chunk.choices with
  | [] => Except.error PyError.indexError
  | c :: _ =>
    let m0 : String := ""
    let m1 := match c.delta.role with
      | some r => m0 ++ r ++ ": "
      | none => m0
    let m2 := match c.delta.content with
      | some s => m1 ++ s
      | none => m1
    Except.ok (m2, c.index)

/-- Python list item assignment `l[i] = v` for a list of strings: in range
(negative indices counting from the end) it replaces, out of range it raises
IndexError, modelled as `none`. -/
def py_setitem (l : List String) (i : Int) (v : String) : Option (List String) :=
  if 0 ≤ i then
    if i < (l.length : Int) then some (l.set i.toNat v) else none
  else
    if 0 ≤ (l.length : Int) + i then some (l.set ((l.length : Int) + i).toNat v) else none

/-- The generator loop shared by `complete_chat_stream_async` and
`complete_stream_async`: for each pulled chunk, parse it and yield either the
fragment itself (one response requested) or a fresh list of
number_of_responses empty strings with the fragment written at the reported
index. An error raised while pulling or parsing terminates the generator. -/
def stream_frames (number_of_responses : Int) :
    ChunkStream → List Frame × Option PyError
  | [] => ([], none)
  | Except.error e :: _ => ([], some (PyError.native e))
  | Except.ok chunk :: rest =>
    match parse_choices chunk with
    | Except.error pe => ([], some pe)
    | Except.ok (text, index) =>
      if 1 < number_of_responses then
        match py_setitem (List.replicate number_of_responses.toNat "") index text with
        | none => ([], some PyError.indexError)
        | some completions =>
          let r := stream_frames number_of_responses rest
          (Frame.slots completions :: r.1, r.2)
      else
        let r := stream_frames number_of_responses rest
        (Frame.text text :: r.1, r.2)

/-- Embedding of `complete_chat_async`: on success, a single choice is returned
unwrapped, otherwise the list of choice contents in order. -/
def complete_chat_async (self : OpenAIChatCompletionBase)
    (transport : ChatPayload → Except TransportError Response)
    (messages : List (String × String))
    (request_settings : Option ChatRequestSettings) :
    Except PyError (Sum String (List String)) × List ChatPayload :=
  match send_chat_request self transport messages request_settings false with
  | (Except.error e, calls) => (Except.error e, calls)
  | (Except.ok response, calls) =>
    match response.choices with
    | [c] => (Except.ok (Sum.inl c.message.content), calls)
    | cs => (Except.ok (Sum.inr (cs.map (fun c => c.message.content))), calls)

/-- Embedding of `complete_chat_stream_async`. The `none` settings case repeats
the None check of `send_chat_request`, which raises before the generator ever
reads number_of_responses. -/
def complete_chat_stream_async (self : OpenAIChatCompletionBase)
    (transport : ChatPayload → Except TransportError ChunkStream)
    (messages : List (String × String))
    (request_settings : Option ChatRequestSettings) :
    Except PyError (List Frame × Option PyError) × List ChatPayload :=
  match request_settings with
  | none => (Except.error (PyError.valueError "The request settings cannot be `None`"), [])
  | some rs =>
    match send_chat_request self transport messages (some rs) true with
    | (Except.error e, calls) => (Except.error e, calls)
    | (Except.ok chunks, calls) =>
      (Except.ok (stream_frames rs.number_of_responses chunks), calls)

/-- Modelled from the spec: `ChatRequestSettings.from_completion_config` lives
in semantic_kernel/connectors/ai/chat_request_settings.py, which is not part of
this repository snapshot. The spec states that the text-completion settings are
converted into chat-request settings with temperature, top_p, presence_penalty,
frequency_penalty, max_tokens, number_of_responses, token_selection_biases and
stop_sequences carried over field-for-field. -/
def ChatRequestSettings.from_completion_config (c : CompleteRequestSettings) :
    ChatRequestSettings :=
  ⟨c.temperature, c.top_p, c.presence_penalty, c.frequency_penalty,
   c.max_tokens, c.number_of_responses, c.token_selection_biases, c.stop_sequences⟩

/-- Embedding of `complete_async`: wraps the prompt as a single user message,
converts the settings via from_completion_config, then proceeds exactly as
`complete_chat_async`. With settings `None`, the field reads inside the
conversion raise an AttributeError before any transport call. -/
def complete_async (self : OpenAIChatCompletionBase)
    (transport : ChatPayload → Except TransportError Response)
    (prompt : String)
    (request_settings : Option CompleteRequestSettings) :
    Except PyError (Sum String (List String)) × List ChatPayload :=
  match request_settings with
  | none => (Except.error PyError.attributeError, [])
  | some cs =>
    let prompt_to_message := [("user", prompt)]
    let chat_settings := ChatRequestSettings.from_completion_config cs
    match send_chat_request self transport prompt_to_message (some chat_settings) false with
    | (Except.error e, calls) => (Except.error e, calls)
    | (Except.ok response, calls) =>
      match response.choices with
      | [c] => (Except.ok (Sum.inl c.message.content), calls)
      | cs2 => (Except.ok (Sum.inr (cs2.map (fun c => c.message.content))), calls)

/-- Embedding of `complete_stream_async`: wraps the prompt as a single user
message, builds the chat settings inline field for field, then streams like
`complete_chat_stream_async` (the loop reads number_of_responses from the
given text-completion settings). With settings `None`, the field reads raise
an AttributeError before any transport call. -/
def complete_stream_async (self : OpenAIChatCompletionBase)
    (transport : ChatPayload → Except TransportError ChunkStream)
    (prompt : String)
    (request_settings : Option CompleteRequestSettings) :
    Except PyError (List Frame × Option PyError) × List ChatPayload :=
  match request_settings with
  | none => (Except.error PyError.attributeError, [])
  | some cs =>
    let prompt_to_message := [("user", prompt)]
    let chat_settings : ChatRequestSettings :=
      ⟨cs.temperature, cs.top_p, cs.presence_penalty, cs.frequency_penalty,
       cs.max_tokens, cs.number_of_responses, cs.token_selection_biases, cs.stop_sequences⟩
    match send_chat_request self transport prompt_to_message (some chat_settings) true with
    | (Except.error e, calls) => (Except.error e, calls)
    | (Except.ok chunks, calls) =>
      (Except.ok (stream_frames cs.number_of_responses chunks), calls)

/- Azure provider binding: AzureChatCompletion.from_dict. The Python dict of
settings is modelled as an association list with unique keys, with the dict
operations the source uses. Values are dynamically typed. -/

/-- A dynamically typed settings value: a string or a boolean. -/
inductive SVal where
  | s (v : String)
  | b (v : Bool)
deriving DecidableEq

/-- A Python dict of settings, as an insertion-ordered association list. -/
abbrev SettingsDict := List (String × SVal)

/-- Membership test `k in d`. -/
def dict_contains (d : SettingsDict) (k : String) : Bool :=
  d.any (fun p => p.1 = k)

/-- Lookup `d.get(k)` as an Option. -/
def dict_get (d : SettingsDict) (k : String) : Option SVal :=
  (d.find? (fun p => p.1 = k)).map Prod.snd

/-- Assignment `d[k] = v`: replaces the value in place when the key exists,
appends the new key otherwise. -/
def dict_set (d : SettingsDict) (k : String) (v : SVal) : SettingsDict :=
  if dict_contains d k then d.map (fun p => if p.1 = k then (k, v) else p)
  else d ++ [(k, v)]

/-- Deletion `del d[k]`. -/
def dict_del (d : SettingsDict) (k : String) : SettingsDict :=
  d.filter (fun p => p.1 ≠ k)

/-- The fields stored by the AzureChatCompletion constructor chain that
from_dict populates (the logger and the model type tag are out of scope). -/
structure AzureChatCompletion where
  deployment_name : SVal
  endpoint : SVal
  api_key : SVal
  api_version : Option SVal
  ad_auth : SVal
deriving DecidableEq

/-- Embedding of `AzureChatCompletion.from_dict`. The source mutates the
CALLER-SUPPLIED dict when it holds an "api_type" key: it writes "ad_auth" and
deletes "api_type" in place, then constructs the object from the (possibly
mutated) dict. The returned pair is (result, the dict as the caller sees it
after the call); required keys missing raise a KeyError in source order. -/
def AzureChatCompletion.from_dict (settings0 : SettingsDict) :
    Except PyError AzureChatCompletion × SettingsDict :=
  let settings :=
    if dict_contains settings0 "api_type" then
      dict_del
        (dict_set settings0 "ad_auth"
          (SVal.b (decide (dict_get settings0 "api_type" = some (SVal.s "azure_ad")))))
        "api_type"
    else settings0
  (match dict_get settings "deployment_name" with
   | none => Except.error (PyError.keyError "deployment_name")
   | some dn =>
     match dict_get settings "endpoint" with
     | none => Except.error (PyError.keyError "endpoint")
     | some ep =>
       match dict_get settings "api_key" with
       | none => Except.error (PyError.keyError "api_key")
       | some key =>
         Except.ok
           ⟨dn, ep, key, dict_get settings "api_version",
            (dict_get settings "ad_auth").getD (SVal.b false)⟩,
   settings)

/- Spec-side definitions, written from the words of the spec, to be compared
with the behaviour of the embedded source (refinement-style statements). -/

/-- Follows the words of the spec: the decoded fragment of a chunk delta is
the role (when present) followed by ": ", concatenated with the content (when
present). -/
def specFragment (d : Delta) : String :=
  (match d.role with | some r => r ++ ": " | none => "") ++
  (match d.content with | some s => s | none => "")

/-- Follows the words of the spec: with one response requested, the frame for
a chunk is its decoded fragment as a plain string (empty choices unreached
under the hypotheses that use this). -/
def specSingleFrame (ch : Chunk) : Frame :=
  match ch.choices with
  | [] => Frame.text ""
  | c :: _ => Frame.text (specFragment c.delta)

/-- Follows the words of the spec: with n > 1 responses requested, the frame
for a chunk is a fresh list of n empty strings with the decoded fragment
written at the reported choice index (empty choices unreached under the
hypotheses that use this). -/
def specMultiFrame (n : Int) (ch : Chunk) : Frame :=
  match ch.choices with
  | [] => Frame.slots []
  | c :: _ =>
    Frame.slots ((List.replicate n.toNat "").set c.index.toNat (specFragment c.delta))

/- Helper lemmas shared by the claim theorems. -/

/-- Once validation passes, `send_chat_request` issues exactly one transport
call with the payload built by `request_payload`, wraps a transport error as a
ServiceError AIException with the cause attached, and passes a transport
result through. -/
theorem send_chat_request_valid {R : Type} (self : OpenAIChatCompletionBase)
    (transport : ChatPayload → Except TransportError R)
    (messages : List (String × String)) (rs : ChatRequestSettings) (stream : Bool)
    (hmt : 1 ≤ rs.max_tokens) (hne : messages ≠ [])
    (hlast : messages.getLast?.map Prod.fst = some "user") :
    send_chat_request self transport messages (some rs) stream =
      match transport (request_payload self messages rs stream) with
      | Except.error ex =>
        (Except.error (PyError.aiException ErrorCode.ServiceError
          "OpenAI service failed to complete the chat" (some ex)),
         [request_payload self messages rs stream])
      | Except.ok r => (Except.ok r, [request_payload self messages rs stream]) := by
  show (if rs.max_tokens < 1 then _ else if messages.length ≤ 0 then _
    else if messages.getLast?.map Prod.fst ≠ some "user" then _ else _) = _
  rw [if_neg (by omega), if_neg (by simp [Nat.le_zero, List.length_eq_zero, hne]),
    if_neg (by simp [hlast])]

/-- On a chunk with a head choice, `parse_choices` returns the spec fragment
of that choice together with its index. -/
theorem parse_choices_cons (c : StreamChoice) (t : List StreamChoice) (ch : Chunk)
    (h : ch.choices = c :: t) :
    parse_choices ch = Except.ok (specFragment c.delta, c.index) := by
  unfold parse_choices specFragment
  rw [h]
  cases hr : c.delta.role <;> cases hc : c.delta.content <;> simp [hr, hc]

/-- Writing into a fresh list of n.toNat empty strings at a reported index i
with 0 ≤ i < n succeeds and is List.set. -/
theorem py_setitem_replicate (n : Int) (i : Int) (v : String)
    (h0 : 0 ≤ i) (hlt : i < n) :
    py_setitem (List.replicate n.toNat "") i v
      = some ((List.replicate n.toNat "").set i.toNat v) := by
  unfold py_setitem
  rw [if_pos h0, if_pos]
  simp only [List.length_replicate]
  omega

/-- Multi-response stream loop on a prefix of well-formed chunks: each chunk
contributes exactly its own fresh frame, in order, and the loop continues on
the remainder. -/
theorem stream_frames_all_ok_multi (n : Int) (hn : 1 < n) (chunks : List Chunk)
    (rest : ChunkStream)
    (hok : ∀ ch ∈ chunks, ∃ c t, ch.choices = c :: t ∧ 0 ≤ c.index ∧ c.index < n) :
    stream_frames n (chunks.map Except.ok ++ rest) =
      (chunks.map (specMultiFrame n) ++ (stream_frames n rest).1,
       (stream_frames n rest).2) := by
  induction chunks with
  | nil => simp
  | cons ch chunks ih =>
    obtain ⟨c, t, hch, h0, hlt⟩ := hok ch (List.mem_cons_self _ _)
    have hrest := ih (fun x hx => hok x (List.mem_cons_of_mem _ hx))
    simp only [List.map_cons, List.cons_append, stream_frames,
      parse_choices_cons c t ch hch, if_pos hn,
      py_setitem_replicate n c.index _ h0 hlt, List.append_eq, hrest,
      specMultiFrame, hch]

/-- Single-response stream loop on a prefix of chunks that each have a choice:
each chunk contributes its fragment as a text frame, in order. -/
theorem stream_frames_all_ok_single (n : Int) (hn : ¬ 1 < n) (chunks : List Chunk)
    (rest : ChunkStream)
    (hok : ∀ ch ∈ chunks, ch.choices ≠ []) :
    stream_frames n (chunks.map Except.ok ++ rest) =
      (chunks.map specSingleFrame ++ (stream_frames n rest).1,
       (stream_frames n rest).2) := by
  induction chunks with
  | nil => simp
  | cons ch chunks ih =>
    obtain ⟨c, t, hch⟩ := List.exists_cons_of_ne_nil (hok ch (List.mem_cons_self _ _))
    have hrest := ih (fun x hx => hok x (List.mem_cons_of_mem _ hx))
    simp only [List.map_cons, List.cons_append, stream_frames,
      parse_choices_cons c t ch hch, if_neg hn, List.append_eq, hrest,
      specSingleFrame, hch]

/-- Sample provider binding used by concrete witnesses. -/
def sampleSelf : OpenAIChatCompletionBase := ⟨"gpt", "key", "open_ai", none, none, none⟩

/-- Sample chat settings with the given number of responses. -/
def sampleSettings (n : Int) : ChatRequestSettings := ⟨0, 0, 0, 0, 256, n, none, none⟩

/-- Sample text settings with the given number of responses. -/
def sampleCSettings (n : Int) : CompleteRequestSettings := ⟨0, 0, 0, 0, 256, n, none, none⟩

/-- Reduction of complete_chat_stream_async under valid settings: one call is
issued and the generator runs over the returned chunks. -/
theorem complete_chat_stream_ok (self : OpenAIChatCompletionBase)
    (messages : List (String × String)) (rs : ChatRequestSettings) (chunks : ChunkStream)
    (hmt : 1 ≤ rs.max_tokens) (hne : messages ≠ [])
    (hlast : messages.getLast?.map Prod.fst = some "user") :
    complete_chat_stream_async self (fun _ => Except.ok chunks) messages (some rs)
      = (Except.ok (stream_frames rs.number_of_responses chunks),
         [request_payload self messages rs true]) := by
  simp only [complete_chat_stream_async]
  rw [send_chat_request_valid self (fun _ => Except.ok chunks) messages rs true hmt hne hlast]

/-- Reduction of complete_stream_async under valid settings. -/
theorem complete_stream_ok (self : OpenAIChatCompletionBase)
    (prompt : String) (cs : CompleteRequestSettings) (chunks : ChunkStream)
    (hmt : 1 ≤ cs.max_tokens) :
    complete_stream_async self (fun _ => Except.ok chunks) prompt (some cs)
      = (Except.ok (stream_frames cs.number_of_responses chunks),
         [request_payload self [("user", prompt)]
           ⟨cs.temperature, cs.top_p, cs.presence_penalty, cs.frequency_penalty,
            cs.max_tokens, cs.number_of_responses, cs.token_selection_biases,
            cs.stop_sequences⟩ true]) := by
  simp only [complete_stream_async]
  rw [send_chat_request_valid self (fun _ => Except.ok chunks) [("user", prompt)] _ true hmt
    (by simp) (by simp)]

/-- Reduction of complete_chat_async under valid settings and a transport
delivering resp. -/
theorem complete_chat_async_ok (self : OpenAIChatCompletionBase)
    (messages : List (String × String)) (rs : ChatRequestSettings) (resp : Response)
    (hmt : 1 ≤ rs.max_tokens) (hne : messages ≠ [])
    (hlast : messages.getLast?.map Prod.fst = some "user") :
    complete_chat_async self (fun _ => Except.ok resp) messages (some rs)
      = (match resp.choices with
         | [c] => (Except.ok (Sum.inl c.message.content),
                   [request_payload self messages rs false])
         | cs2 => (Except.ok (Sum.inr (cs2.map (fun c => c.message.content))),
                   [request_payload self messages rs false])) := by
  simp only [complete_chat_async]
  rw [send_chat_request_valid self (fun _ => Except.ok resp) messages rs false hmt hne hlast]

/-- Reduction of complete_async under valid settings and a transport
delivering resp. -/
theorem complete_async_ok (self : OpenAIChatCompletionBase)
    (prompt : String) (cs : CompleteRequestSettings) (resp : Response)
    (hmt : 1 ≤ cs.max_tokens) :
    complete_async self (fun _ => Except.ok resp) prompt (some cs)
      = (match resp.choices with
         | [c] => (Except.ok (Sum.inl c.message.content),
                   [request_payload self [("user", prompt)]
                     (ChatRequestSettings.from_completion_config cs) false])
         | cs2 => (Except.ok (Sum.inr (cs2.map (fun c => c.message.content))),
                   [request_payload self [("user", prompt)]
                     (ChatRequestSettings.from_completion_config cs) false])) := by
  simp only [complete_async]
  rw [send_chat_request_valid self (fun _ => Except.ok resp) [("user", prompt)] _ false hmt
    (by simp) (by simp)]

/-- Reduction of complete_chat_async under valid settings and a failing
transport: the ServiceError wrapping with the cause attached. -/
theorem complete_chat_async_err (self : OpenAIChatCompletionBase)
    (messages : List (String × String)) (rs : ChatRequestSettings) (e : TransportError)
    (hmt : 1 ≤ rs.max_tokens) (hne : messages ≠ [])
    (hlast : messages.getLast?.map Prod.fst = some "user") :
    complete_chat_async self (fun _ => Except.error e) messages (some rs)
      = (Except.error (PyError.aiException ErrorCode.ServiceError
          "OpenAI service failed to complete the chat" (some e)),
         [request_payload self messages rs false]) := by
  simp only [complete_chat_async]
  rw [send_chat_request_valid self (fun _ => Except.error e) messages rs false hmt hne hlast]

/-- Reduction of complete_chat_stream_async under valid settings and a failing
initial transport call: the ServiceError wrapping with the cause attached. -/
theorem complete_chat_stream_err (self : OpenAIChatCompletionBase)
    (messages : List (String × String)) (rs : ChatRequestSettings) (e : TransportError)
    (hmt : 1 ≤ rs.max_tokens) (hne : messages ≠ [])
    (hlast : messages.getLast?.map Prod.fst = some "user") :
    complete_chat_stream_async self (fun _ => Except.error e) messages (some rs)
      = (Except.error (PyError.aiException ErrorCode.ServiceError
          "OpenAI service failed to complete the chat" (some e)),
         [request_payload self messages rs true]) := by
  simp only [complete_chat_stream_async]
  rw [send_chat_request_valid self (fun _ => Except.error e) messages rs true hmt hne hlast]

/-- C1: for every streaming call, chat or text variant, with
number_of_responses > 1, each incoming chunk yields one frame, in arrival
order, and that frame is a freshly built list of number_of_responses strings,
all empty except the slot at the reported choice index, which holds only the
fragment decoded from that chunk (specMultiFrame). Since frame j is a function
of chunk j alone, no content from earlier chunks is carried into later
frames. -/
theorem C1_stream_multi_fresh_frames (self : OpenAIChatCompletionBase)
    (messages : List (String × String)) (prompt : String)
    (rs : ChatRequestSettings) (cs : CompleteRequestSettings) (chunks : List Chunk)
    (hmt : 1 ≤ rs.max_tokens) (hne : messages ≠ [])
    (hlast : messages.getLast?.map Prod.fst = some "user")
    (hn : 1 < rs.number_of_responses)
    (hcs_mt : 1 ≤ cs.max_tokens) (hcs_n : cs.number_of_responses = rs.number_of_responses)
    (hok : ∀ ch ∈ chunks, ∃ c t, ch.choices = c :: t ∧ 0 ≤ c.index ∧
      c.index < rs.number_of_responses) :
    (complete_chat_stream_async self (fun _ => Except.ok (chunks.map Except.ok))
        messages (some rs)).1
      = Except.ok (chunks.map (specMultiFrame rs.number_of_responses), none) ∧
    (complete_stream_async self (fun _ => Except.ok (chunks.map Except.ok))
        prompt (some cs)).1
      = Except.ok (chunks.map (specMultiFrame rs.number_of_responses), none) := by
  have h := stream_frames_all_ok_multi rs.number_of_responses hn chunks [] hok
  simp only [List.append_nil, stream_frames] at h
  constructor
  · rw [complete_chat_stream_ok self messages rs (chunks.map Except.ok) hmt hne hlast]
    simp [h]
  · rw [complete_stream_ok self prompt cs (chunks.map Except.ok) hcs_mt]
    rw [hcs_n]
    simp [h]

/-- C1 witness: the spec example with number_of_responses = 2 — a chunk
reporting index 1 with content X gives the frame ["", "X"], the next chunk
reporting index 0 with content Y gives the frame ["Y", ""]. -/
theorem C1_stream_multi_fresh_frames_witness :
    (complete_chat_stream_async sampleSelf
        (fun _ => Except.ok [Except.ok ⟨[⟨⟨none, some "X"⟩, 1⟩]⟩,
          Except.ok ⟨[⟨⟨none, some "Y"⟩, 0⟩]⟩])
        [("user", "hi")] (some (sampleSettings 2))).1
      = Except.ok ([Frame.slots ["", "X"], Frame.slots ["Y", ""]], none) := by
  have h := (C1_stream_multi_fresh_frames sampleSelf [("user", "hi")] "hi"
    (sampleSettings 2) (sampleCSettings 2)
    [⟨[⟨⟨none, some "X"⟩, 1⟩]⟩, ⟨[⟨⟨none, some "Y"⟩, 0⟩]⟩]
    (by decide) (by decide) (by decide) (by decide) (by decide) (by decide)
    (by intro ch hch; fin_cases hch <;> exact ⟨_, _, rfl, by decide, by decide⟩)).1
  exact h.trans (by decide)

/-- C7: for every streaming call, chat or text variant, with
number_of_responses = 1, each incoming chunk is decoded into the fragment
built from its optional role field (followed by a colon and a space) and its
optional content field, and these fragments are emitted as plain string
frames in chunk arrival order (specSingleFrame). -/
theorem C7_stream_single_fragments (self : OpenAIChatCompletionBase)
    (messages : List (String × String)) (prompt : String)
    (rs : ChatRequestSettings) (cs : CompleteRequestSettings) (chunks : List Chunk)
    (hmt : 1 ≤ rs.max_tokens) (hne : messages ≠ [])
    (hlast : messages.getLast?.map Prod.fst = some "user")
    (hn : rs.number_of_responses = 1)
    (hcs_mt : 1 ≤ cs.max_tokens) (hcs_n : cs.number_of_responses = 1)
    (hok : ∀ ch ∈ chunks, ch.choices ≠ []) :
    (complete_chat_stream_async self (fun _ => Except.ok (chunks.map Except.ok))
        messages (some rs)).1
      = Except.ok (chunks.map specSingleFrame, none) ∧
    (complete_stream_async self (fun _ => Except.ok (chunks.map Except.ok))
        prompt (some cs)).1
      = Except.ok (chunks.map specSingleFrame, none) := by
  have h1 := stream_frames_all_ok_single 1 (by omega) chunks [] hok
  simp only [List.append_nil, stream_frames] at h1
  constructor
  · rw [complete_chat_stream_ok self messages rs (chunks.map Except.ok) hmt hne hlast]
    rw [hn]
    simp [h1]
  · rw [complete_stream_ok self prompt cs (chunks.map Except.ok) hcs_mt]
    rw [hcs_n]
    simp [h1]

/-- C7 witness: the spec example — deltas carrying role assistant, content Hi
and content " there" yield the frames "assistant: ", "Hi", " there" in that
order. -/
theorem C7_stream_single_fragments_witness :
    (complete_chat_stream_async sampleSelf
        (fun _ => Except.ok [Except.ok ⟨[⟨⟨some "assistant", none⟩, 0⟩]⟩,
          Except.ok ⟨[⟨⟨none, some "Hi"⟩, 0⟩]⟩,
          Except.ok ⟨[⟨⟨none, some " there"⟩, 0⟩]⟩])
        [("user", "hi")] (some (sampleSettings 1))).1
      = Except.ok ([Frame.text "assistant: ", Frame.text "Hi", Frame.text " there"],
        none) := by
  have h := (C7_stream_single_fragments sampleSelf [("user", "hi")] "hi"
    (sampleSettings 1) (sampleCSettings 1)
    [⟨[⟨⟨some "assistant", none⟩, 0⟩]⟩, ⟨[⟨⟨none, some "Hi"⟩, 0⟩]⟩,
     ⟨[⟨⟨none, some " there"⟩, 0⟩]⟩]
    (by decide) (by decide) (by decide) (by decide) (by decide) (by decide)
    (by decide)).1
  exact h.trans (by decide)

/-- C10: in a streaming call with number_of_responses > 1, a chunk whose
reported choice index is at least number_of_responses makes the generator
fail with an IndexError (the write into the fresh fixed-size list is out of
bounds) instead of yielding a frame. -/
theorem C10_out_of_range_index_fails (self : OpenAIChatCompletionBase)
    (messages : List (String × String)) (rs : ChatRequestSettings)
    (ch : Chunk) (c : StreamChoice) (t : List StreamChoice) (tail : ChunkStream)
    (hmt : 1 ≤ rs.max_tokens) (hne : messages ≠ [])
    (hlast : messages.getLast?.map Prod.fst = some "user")
    (hn : 1 < rs.number_of_responses)
    (hch : ch.choices = c :: t)
    (hidx : rs.number_of_responses ≤ c.index) :
    (complete_chat_stream_async self (fun _ => Except.ok (Except.ok ch :: tail))
        messages (some rs)).1
      = Except.ok ([], some PyError.indexError) := by
  rw [complete_chat_stream_ok self messages rs (Except.ok ch :: tail) hmt hne hlast]
  have hset : py_setitem (List.replicate rs.number_of_responses.toNat "") c.index
      (specFragment c.delta) = none := by
    unfold py_setitem
    rw [if_pos (by omega), if_neg (by simp only [List.length_replicate]; omega)]
  simp only [stream_frames, parse_choices_cons c t ch hch, if_pos hn, hset]

/-- C10 witness: with number_of_responses = 2, a chunk reporting index 2
terminates the stream with an IndexError and yields no frame. -/
theorem C10_out_of_range_index_fails_witness :
    (complete_chat_stream_async sampleSelf
        (fun _ => Except.ok [Except.ok ⟨[⟨⟨none, some "X"⟩, 2⟩]⟩])
        [("user", "hi")] (some (sampleSettings 2))).1
      = Except.ok ([], some PyError.indexError) :=
  C10_out_of_range_index_fails sampleSelf [("user", "hi")] (sampleSettings 2)
    ⟨[⟨⟨none, some "X"⟩, 2⟩]⟩ ⟨⟨none, some "X"⟩, 2⟩ [] []
    (by decide) (by decide) (by decide) (by decide) rfl (by decide)

/-- C2 counterexample: with absent settings, complete_chat_async raises a
plain ValueError, which is not an AIException at all — in particular not an
InvalidRequest failure — refuting the claim as stated (no network call is
made, which is the part of the claim that does hold). -/
theorem C2_counterexample :
    complete_chat_async sampleSelf (fun _ => Except.ok ⟨[]⟩) [("user", "hi")] none
      = (Except.error (PyError.valueError "The request settings cannot be `None`"), []) ∧
    (∀ code msg cause,
      PyError.valueError "The request settings cannot be `None`"
        ≠ PyError.aiException code msg cause) :=
  ⟨by decide, fun _ _ _ h => PyError.noConfusion h⟩

/-- C2 amended: with absent settings, completeChat fails with a ValueError
(not an InvalidRequest AIException) and completeText fails with an
AttributeError inside the settings conversion; in both cases no network call
is issued. -/
theorem C2_missing_settings_no_call (self : OpenAIChatCompletionBase)
    (transport : ChatPayload → Except TransportError Response)
    (transport2 : ChatPayload → Except TransportError Response)
    (messages : List (String × String)) (prompt : String) :
    complete_chat_async self transport messages none
      = (Except.error (PyError.valueError "The request settings cannot be `None`"), []) ∧
    complete_async self transport2 prompt none
      = (Except.error PyError.attributeError, []) :=
  ⟨rfl, rfl⟩

/-- C3 counterexample: a transport error raised while the consumer pulls
streamed elements (after a successful initial call) surfaces as the native
transport error, not as a ServiceError AIException — refuting the streamed
half of the claim. -/
theorem C3_counterexample :
    (complete_chat_stream_async sampleSelf
        (fun _ => Except.ok [Except.error ⟨"boom"⟩])
        [("user", "hi")] (some (sampleSettings 1))).1
      = Except.ok ([], some (PyError.native ⟨"boom"⟩)) ∧
    (∀ msg cause,
      PyError.native ⟨"boom"⟩ ≠ PyError.aiException ErrorCode.ServiceError msg cause) :=
  ⟨by decide, fun _ _ h => PyError.noConfusion h⟩

/-- C3 amended: a failure of the transport call itself — the non-streaming
call or the initial streaming call — is re-signaled as a ServiceError with
the original cause attached, and the native error is not observed there; but
a failure raised while the consumer pulls streamed elements propagates as the
transport error itself, unwrapped. -/
theorem C3_service_error_wrapping (self : OpenAIChatCompletionBase)
    (messages : List (String × String)) (rs : ChatRequestSettings) (e : TransportError)
    (hmt : 1 ≤ rs.max_tokens) (hne : messages ≠ [])
    (hlast : messages.getLast?.map Prod.fst = some "user") :
    (complete_chat_async self (fun _ => Except.error e) messages (some rs)).1
      = Except.error (PyError.aiException ErrorCode.ServiceError
          "OpenAI service failed to complete the chat" (some e)) ∧
    (complete_chat_stream_async self (fun _ => Except.error e) messages (some rs)).1
      = Except.error (PyError.aiException ErrorCode.ServiceError
          "OpenAI service failed to complete the chat" (some e)) ∧
    (∀ tail : ChunkStream,
      (complete_chat_stream_async self (fun _ => Except.ok (Except.error e :: tail))
          messages (some rs)).1
        = Except.ok ([], some (PyError.native e))) := by
  refine ⟨?_, ?_, ?_⟩
  · rw [complete_chat_async_err self messages rs e hmt hne hlast]
  · rw [complete_chat_stream_err self messages rs e hmt hne hlast]
  · intro tail
    rw [complete_chat_stream_ok self messages rs (Except.error e :: tail) hmt hne hlast]
    rfl

/-- C3 witness: the wrapped and unwrapped behaviors at a concrete input. -/
theorem C3_service_error_wrapping_witness :
    (complete_chat_async sampleSelf (fun _ => Except.error ⟨"down"⟩)
        [("user", "hi")] (some (sampleSettings 1))).1
      = Except.error (PyError.aiException ErrorCode.ServiceError
          "OpenAI service failed to complete the chat" (some ⟨"down"⟩)) :=
  (C3_service_error_wrapping sampleSelf [("user", "hi")] (sampleSettings 1) ⟨"down"⟩
    (by decide) (by decide) (by decide)).1

/-- C4: with max_tokens below one, or an empty message list, or a last message
whose role is not user, completeChat fails with the matching InvalidRequest
AIException and issues no transport call; completeText, whose message list is
always the single user message, fails the same way when max_tokens is below
one. -/
theorem C4_local_validation_no_call (self : OpenAIChatCompletionBase)
    (transport : ChatPayload → Except TransportError Response)
    (transport2 : ChatPayload → Except TransportError Response)
    (messages : List (String × String)) (prompt : String)
    (rs : ChatRequestSettings) (cs : CompleteRequestSettings) :
    (rs.max_tokens < 1 →
      complete_chat_async self transport messages (some rs)
        = (Except.error (PyError.aiException ErrorCode.InvalidRequest
            ("The max tokens must be greater than 0, but was " ++ toString rs.max_tokens)
            none), [])) ∧
    (1 ≤ rs.max_tokens → messages = [] →
      complete_chat_async self transport messages (some rs)
        = (Except.error (PyError.aiException ErrorCode.InvalidRequest
            "To complete a chat you need at least one message" none), [])) ∧
    (1 ≤ rs.max_tokens → messages ≠ [] →
      messages.getLast?.map Prod.fst ≠ some "user" →
      complete_chat_async self transport messages (some rs)
        = (Except.error (PyError.aiException ErrorCode.InvalidRequest
            "The last message must be from the user" none), [])) ∧
    (cs.max_tokens < 1 →
      complete_async self transport2 prompt (some cs)
        = (Except.error (PyError.aiException ErrorCode.InvalidRequest
            ("The max tokens must be greater than 0, but was " ++ toString cs.max_tokens)
            none), [])) := by
  refine ⟨fun h1 => ?_, fun h1 h2 => ?_, fun h1 h2 h3 => ?_, fun h1 => ?_⟩
  · simp only [complete_chat_async, send_chat_request]
    rw [if_pos h1]
  · simp only [complete_chat_async, send_chat_request]
    rw [if_neg (by omega), if_pos (by simp [h2])]
  · simp only [complete_chat_async, send_chat_request]
    rw [if_neg (by omega), if_neg (by simp [Nat.le_zero, List.length_eq_zero, h2]),
      if_pos h3]
  · simp only [complete_async, send_chat_request]
    rw [if_pos (show (ChatRequestSettings.from_completion_config cs).max_tokens < 1 from h1)]
    rfl

/-- C4 witness: completeChat with max_tokens = 0 fails with the InvalidRequest
AIException and an empty transport-call list. -/
theorem C4_local_validation_no_call_witness :
    complete_chat_async sampleSelf (fun _ => Except.ok ⟨[]⟩) [("user", "hi")]
        (some ⟨0, 0, 0, 0, 0, 1, none, none⟩)
      = (Except.error (PyError.aiException ErrorCode.InvalidRequest
          "The max tokens must be greater than 0, but was 0" none), []) := by
  have h := (C4_local_validation_no_call sampleSelf (fun _ => Except.ok ⟨[]⟩)
    (fun _ => Except.ok ⟨[]⟩) [("user", "hi")] "hi"
    ⟨0, 0, 0, 0, 0, 1, none, none⟩ (sampleCSettings 1)).1 (by decide)
  exact h.trans (by decide)

/-- C5 counterexample: from_dict on a mapping that contains an api_type key
hands back a mutated mapping — ad_auth has been written and api_type deleted —
refuting the claim that the caller-supplied configuration mapping is always
left unchanged. -/
theorem C5_counterexample :
    (AzureChatCompletion.from_dict
        [("deployment_name", SVal.s "d"), ("endpoint", SVal.s "e"),
         ("api_key", SVal.s "k"), ("api_type", SVal.s "azure_ad")]).2
      ≠ [("deployment_name", SVal.s "d"), ("endpoint", SVal.s "e"),
         ("api_key", SVal.s "k"), ("api_type", SVal.s "azure_ad")] := by
  decide

/-- C5 amended: from_dict leaves the caller-supplied mapping unchanged exactly
when it holds no api_type key; when api_type is present, the call mutates the
mapping in place — ad_auth is set to whether api_type equals azure_ad and the
api_type key is deleted — before the object is constructed. -/
theorem C5_from_dict_mutation (d : SettingsDict) :
    (dict_contains d "api_type" = false →
      (AzureChatCompletion.from_dict d).2 = d) ∧
    (dict_contains d "api_type" = true →
      (AzureChatCompletion.from_dict d).2 =
        dict_del (dict_set d "ad_auth"
          (SVal.b (decide (dict_get d "api_type" = some (SVal.s "azure_ad")))))
          "api_type") := by
  have hsnd : (AzureChatCompletion.from_dict d).2 =
      if dict_contains d "api_type" then
        dict_del (dict_set d "ad_auth"
          (SVal.b (decide (dict_get d "api_type" = some (SVal.s "azure_ad")))))
          "api_type"
      else d := rfl
  constructor
  · intro h
    rw [hsnd, h]
    rfl
  · intro h
    rw [hsnd, h]
    rfl

/-- C5 witness: a mapping without api_type comes back unchanged. -/
theorem C5_from_dict_mutation_witness :
    (AzureChatCompletion.from_dict
        [("deployment_name", SVal.s "d"), ("endpoint", SVal.s "e"),
         ("api_key", SVal.s "k")]).2
      = [("deployment_name", SVal.s "d"), ("endpoint", SVal.s "e"),
         ("api_key", SVal.s "k")] :=
  (C5_from_dict_mutation
    [("deployment_name", SVal.s "d"), ("endpoint", SVal.s "e"),
     ("api_key", SVal.s "k")]).1 (by decide)

/-- C6: for a successful non-streaming response, completeChat and completeText
return the single message content unwrapped when exactly one choice is
present, and the ordered list of the choice contents otherwise; the single
choice case never yields a one-element list. -/
theorem C6_single_choice_unwrapped (self : OpenAIChatCompletionBase)
    (messages : List (String × String)) (prompt : String)
    (rs : ChatRequestSettings) (cs : CompleteRequestSettings) (resp : Response)
    (hmt : 1 ≤ rs.max_tokens) (hne : messages ≠ [])
    (hlast : messages.getLast?.map Prod.fst = some "user")
    (hcs : 1 ≤ cs.max_tokens) :
    (∀ c, resp.choices = [c] →
      (complete_chat_async self (fun _ => Except.ok resp) messages (some rs)).1
          = Except.ok (Sum.inl c.message.content) ∧
      (complete_async self (fun _ => Except.ok resp) prompt (some cs)).1
          = Except.ok (Sum.inl c.message.content)) ∧
    (resp.choices.length ≠ 1 →
      (complete_chat_async self (fun _ => Except.ok resp) messages (some rs)).1
          = Except.ok (Sum.inr (resp.choices.map (fun c => c.message.content))) ∧
      (complete_async self (fun _ => Except.ok resp) prompt (some cs)).1
          = Except.ok (Sum.inr (resp.choices.map (fun c => c.message.content)))) := by
  rw [complete_chat_async_ok self messages rs resp hmt hne hlast,
    complete_async_ok self prompt cs resp hcs]
  constructor
  · intro c hc
    rw [hc]
    exact ⟨rfl, rfl⟩
  · intro hlen
    rcases hch : resp.choices with _ | ⟨a, _ | ⟨b, l⟩⟩
    · exact ⟨rfl, rfl⟩
    · exact absurd (by rw [hch]; rfl) hlen
    · exact ⟨rfl, rfl⟩

/-- C6 witness: a single-choice response is returned unwrapped by both
operations at a concrete input. -/
theorem C6_single_choice_unwrapped_witness :
    (complete_chat_async sampleSelf (fun _ => Except.ok ⟨[⟨⟨"hello"⟩⟩]⟩)
        [("user", "hi")] (some (sampleSettings 1))).1
      = Except.ok (Sum.inl "hello") ∧
    (complete_async sampleSelf (fun _ => Except.ok ⟨[⟨⟨"hello"⟩⟩]⟩)
        "hi" (some (sampleCSettings 1))).1
      = Except.ok (Sum.inl "hello") :=
  (C6_single_choice_unwrapped sampleSelf [("user", "hi")] "hi"
    (sampleSettings 1) (sampleCSettings 1) ⟨[⟨⟨"hello"⟩⟩]⟩
    (by decide) (by decide) (by decide) (by decide)).1 ⟨⟨"hello"⟩⟩ rfl

/-- the model_args field of the payload, as a function of api_type. -/
theorem request_payload_model_args (self : OpenAIChatCompletionBase)
    (messages : List (String × String)) (rs : ChatRequestSettings) (stream : Bool) :
    (request_payload self messages rs stream).model_args
      = if self.api_type ∈ (["azure", "azure_ad"] : List String) then
          [("engine", self.model_id)]
        else [("model", self.model_id)] := rfl

/-- C8: completeText wraps the prompt as the single user message, converts the
settings field-for-field (temperature, top_p, presence_penalty,
frequency_penalty, max_tokens, number_of_responses, token_selection_biases,
stop_sequences), behaves exactly as completeChat on that one-message
conversation — for the non-streaming and the streaming variant — and the one
transport payload it issues carries exactly that message list. -/
theorem C8_complete_text_delegates (self : OpenAIChatCompletionBase)
    (transport : ChatPayload → Except TransportError Response)
    (transport2 : ChatPayload → Except TransportError ChunkStream)
    (prompt : String) (cs : CompleteRequestSettings)
    (hmt : 1 ≤ cs.max_tokens) :
    (ChatRequestSettings.from_completion_config cs).temperature = cs.temperature ∧
    (ChatRequestSettings.from_completion_config cs).top_p = cs.top_p ∧
    (ChatRequestSettings.from_completion_config cs).presence_penalty = cs.presence_penalty ∧
    (ChatRequestSettings.from_completion_config cs).frequency_penalty = cs.frequency_penalty ∧
    (ChatRequestSettings.from_completion_config cs).max_tokens = cs.max_tokens ∧
    (ChatRequestSettings.from_completion_config cs).number_of_responses
      = cs.number_of_responses ∧
    (ChatRequestSettings.from_completion_config cs).token_selection_biases
      = cs.token_selection_biases ∧
    (ChatRequestSettings.from_completion_config cs).stop_sequences = cs.stop_sequences ∧
    complete_async self transport prompt (some cs)
      = complete_chat_async self transport [("user", prompt)]
          (some (ChatRequestSettings.from_completion_config cs)) ∧
    complete_stream_async self transport2 prompt (some cs)
      = complete_chat_stream_async self transport2 [("user", prompt)]
          (some (ChatRequestSettings.from_completion_config cs)) ∧
    (complete_async self transport prompt (some cs)).2.map (fun p => p.messages)
      = [[("user", prompt)]] := by
  refine ⟨rfl, rfl, rfl, rfl, rfl, rfl, rfl, rfl, rfl, rfl, ?_⟩
  simp only [complete_async]
  rw [send_chat_request_valid self transport [("user", prompt)]
    (ChatRequestSettings.from_completion_config cs) false hmt (by simp) (by simp)]
  cases htr : transport (request_payload self [("user", prompt)]
      (ChatRequestSettings.from_completion_config cs) false) with
  | error e => rfl
  | ok r =>
    obtain ⟨chs⟩ := r
    cases chs with
    | nil => rfl
    | cons a l =>
      cases l with
      | nil => rfl
      | cons b l2 => rfl

/-- C8 witness: at a concrete prompt and settings, the delegation equation and
the payload message list. -/
theorem C8_complete_text_delegates_witness :
    complete_async sampleSelf (fun _ => Except.ok ⟨[⟨⟨"hello"⟩⟩]⟩) "Hello"
        (some (sampleCSettings 1))
      = complete_chat_async sampleSelf (fun _ => Except.ok ⟨[⟨⟨"hello"⟩⟩]⟩)
          [("user", "Hello")]
          (some (ChatRequestSettings.from_completion_config (sampleCSettings 1))) ∧
    (complete_async sampleSelf (fun _ => Except.ok ⟨[⟨⟨"hello"⟩⟩]⟩) "Hello"
        (some (sampleCSettings 1))).2.map (fun p => p.messages)
      = [[("user", "Hello")]] := by
  have h := C8_complete_text_delegates sampleSelf
    (fun _ => Except.ok ⟨[⟨⟨"hello"⟩⟩]⟩) (fun _ => Except.ok [])
    "Hello" (sampleCSettings 1) (by decide)
  exact ⟨h.2.2.2.2.2.2.2.2.1, h.2.2.2.2.2.2.2.2.2.2⟩

/-- C9: the model-selection key of the outgoing payload is a deterministic
function of api_type: azure and azure_ad bind the stored model identifier to
the engine key, every other api_type binds it to the model key. Holds for
every transport, message list, settings and streaming flag that reach the
call. -/
theorem C9_model_key_by_api_type {R : Type} (self : OpenAIChatCompletionBase)
    (transport : ChatPayload → Except TransportError R)
    (messages : List (String × String)) (rs : ChatRequestSettings) (stream : Bool)
    (hmt : 1 ≤ rs.max_tokens) (hne : messages ≠ [])
    (hlast : messages.getLast?.map Prod.fst = some "user") :
    ((self.api_type = "azure" ∨ self.api_type = "azure_ad") →
      (send_chat_request self transport messages (some rs) stream).2.map
          (fun p => p.model_args)
        = [[("engine", self.model_id)]]) ∧
    (self.api_type ≠ "azure" ∧ self.api_type ≠ "azure_ad" →
      (send_chat_request self transport messages (some rs) stream).2.map
          (fun p => p.model_args)
        = [[("model", self.model_id)]]) := by
  have hcalls : (send_chat_request self transport messages (some rs) stream).2
      = [request_payload self messages rs stream] := by
    rw [send_chat_request_valid self transport messages rs stream hmt hne hlast]
    cases htr : transport (request_payload self messages rs stream) <;> rfl
  rw [hcalls]
  constructor
  · rintro (h | h) <;> simp [request_payload_model_args, h]
  · rintro ⟨h1, h2⟩
    simp [request_payload_model_args, h1, h2]

/-- C9 witness: the sample binding has api_type open_ai, so the payload binds
the identifier to the model key; an azure binding binds it to the engine key. -/
theorem C9_model_key_by_api_type_witness :
    (send_chat_request sampleSelf (fun _ => Except.ok (⟨[]⟩ : Response))
        [("user", "hi")] (some (sampleSettings 1)) false).2.map (fun p => p.model_args)
      = [[("model", "gpt")]] := by
  have h := (C9_model_key_by_api_type sampleSelf (fun _ => Except.ok (⟨[]⟩ : Response))
    [("user", "hi")] (sampleSettings 1) false (by decide) (by decide) (by decide)).2
    (by decide)
  exact h.trans (by decide)
